import Mathlib

/-!
Shallow embedding of the authorization-and-scoping logic of the
`threat_graph` telemetry dashboard backend.

The route handlers in `src/app/routes/agent_detail.py` and
`src/app/routes/modbus_events.py`, and the controller functions in
`src/app/controllers/manage.py`, are translated directly into Lean
functions.  A Python `raise` of an application error is modelled as
`Except.error`; a normal `return` as `Except.ok`.  The external
collaborators the routes call (the user model, the agent directory, the
telemetry store) are not part of the source tree; they are modelled from
the specification, each such definition carrying a doc comment starting
`Modelled from the spec:`.
-/

namespace ThreatGraph

/-- `app.models.user_db.UserModel`: the fields the route handlers read
(`id`, `username`, `user_role`, `disabled`). -/
structure UserModel where
  id : Nat
  username : String
  user_role : String
  disabled : Bool
deriving Repr, DecidableEq

/-- An entry of the agent directory: canonical id, display name, the groups
the agent belongs to, and its last-activity timestamp (seconds). -/
structure AgentDir where
  agent_id : String
  agent_name : String
  groups : List String
  last_active : Int
deriving Repr, DecidableEq

/-- A raw telemetry record (MITRE / ransomware / CVE / IoC / compliance),
keyed by the agent it belongs to. -/
structure TelemetryRecord where
  agent_id : String
  timestamp : Int
  payload : String
deriving Repr, DecidableEq

/-- A modbus event as stored by `ModbusEventController`. -/
structure ModbusEvent where
  device_id : String
  timestamp : Int
deriving Repr, DecidableEq

/-- `app.models.manage_db.Group`: a group row, owned by one signup. -/
structure Group where
  group_name : String
  user_signup_id : Nat
deriving Repr, DecidableEq

/-- `app.models.manage_db.UserSignup`: the signup row holding the email. -/
structure UserSignup where
  id : Nat
  email : String
deriving Repr, DecidableEq

/-- The application error classes of `app.ext.error` that the routes raise:
`UnauthorizedError`, `PermissionError`, `InternalServerError`, each carrying
the message string passed to the constructor. -/
inductive ApiError where
  | unauthorized (msg : String)
  | permission (msg : String)
  | internal (msg : String)
deriving Repr, DecidableEq

/-- The read-only world the handlers run against: group ownership
(`UserModel.get_user_groups`), the agent directory, the telemetry store and
the modbus event store. -/
structure Env where
  user_groups : Nat → List String
  agents : List AgentDir
  telemetry : List TelemetryRecord
  modbus_events : List ModbusEvent
  new_event_id : String

/-- Modelled from the spec: `agentsInGroups(group_names) -> set<agent_id>`
(§4.2), the external agent-management platform's group membership — the
agents of the directory belonging to at least one of the given groups. -/
def agentsInGroups (env : Env) (group_names : List String) : List String :=
  (env.agents.filter fun a => a.groups.any fun g => group_names.contains g).map
    (fun a => a.agent_id)

/-- Modelled from the spec: `AgentController.check_user_permission`
(`app.controllers.wazuh`, not under `src/`).  Per §4.3 step 3 the only
group-level denial for a non-admin is an empty owned-group set; the function
receives `(current_user, user_groups)` and returns a truthy
`permission_error` exactly when the group list is empty.  It never sees the
requested agent, so it cannot check per-agent membership. -/
def check_user_permission (_current_user : UserModel) (user_groups : List String) : Bool :=
  user_groups.isEmpty

/-- Modelled from the spec: `AgentDetailController.get_agent_info(agent_name)`
(§6 agent directory) — the directory entries whose display name matches the
caller-supplied `agent_name`. -/
def fetch_agent_info (env : Env) (agent_name : String) : List AgentDir :=
  env.agents.filter fun a => a.agent_name == agent_name

/-- The canonical ids of the directory agents carrying a given display name. -/
def agentIdsNamed (env : Env) (agent_name : String) : List String :=
  (fetch_agent_info env agent_name).map (fun a => a.agent_id)

/-- Modelled from the spec: the telemetry store's name-keyed reads
(`AgentDetailController.get_agent_mitre` / `get_agent_ransomware`), which
select the records of every agent whose display name matches
`agent_name`, within the time window (§6 telemetry store). -/
def fetch_telemetry_by_name (env : Env) (agent_name : String) (st en : Int) :
    List TelemetryRecord :=
  env.telemetry.filter fun r =>
    (agentIdsNamed env agent_name).contains r.agent_id &&
      (decide (st ≤ r.timestamp) && decide (r.timestamp ≤ en))

/-- Modelled from the spec: the telemetry store's id-keyed reads
(`AgentDetailController.get_agent_cve` / `get_agent_ioc` /
`get_agent_compliance`), selecting the records of the given agent id within
the time window (§6 telemetry store). -/
def fetch_telemetry_by_id (env : Env) (agent_id : String) (st en : Int) :
    List TelemetryRecord :=
  env.telemetry.filter fun r =>
    r.agent_id == agent_id && (decide (st ≤ r.timestamp) && decide (r.timestamp ≤ en))

/-- Modelled from the spec: `ModbusEventController.get_modbus_events(start_time,
end_time)` — the call carries only the time window, so the result is every
stored modbus event inside it, with no agent or group restriction. -/
def fetch_modbus_events (env : Env) (st en : Int) : List ModbusEvent :=
  env.modbus_events.filter fun e =>
    decide (st ≤ e.timestamp) && decide (e.timestamp ≤ en)

/-- Python truthiness of the `group_names` variable of `get_agent_cve` /
`get_agent_ioc` / `get_agent_compliance`: `not group_names` is true both for
`None` (the admin branch) and for an empty list. -/
def groupNamesFalsy : Option (List String) → Bool
  | none => true
  | some l => l.isEmpty

/-- The successful bodies the route handlers can return. -/
inductive RouteOutput where
  | agentInfo (content : List AgentDir)
  | telemetry (records : List TelemetryRecord)
  | modbusList (events : List ModbusEvent)
  | modbusCreated (event_id : String)
deriving Repr, DecidableEq

/-- The `except` ladder shared by every route handler: an
`UnauthorizedError` is re-raised as `UnauthorizedError("Authentication
required")`, a `PermissionError` as `PermissionError("Permission denied")`,
and any other exception as an `InternalServerError` (whose message varies
per route). -/
def routeExcept (internalMsg : String) :
    Except ApiError RouteOutput → Except ApiError RouteOutput
  | .error (.unauthorized _) => .error (.unauthorized "Authentication required")
  | .error (.permission _) => .error (.permission "Permission denied")
  | .error (.internal _) => .error (.internal internalMsg)
  | .ok r => .ok r

/-- `get_agent_info` (`agent_detail.py` lines 16–64), `try` body: disabled
check, admin branch, then `get_user_groups` + `check_user_permission`, then
the name-keyed fetch. -/
def get_agent_info_body (env : Env) (agent_name : String) (current_user : UserModel) :
    Except ApiError RouteOutput :=
  if current_user.disabled then
    .error (.permission "User account is disabled")
  else if current_user.user_role == "admin" then
    .ok (.agentInfo (fetch_agent_info env agent_name))
  else
    let user_groups := env.user_groups current_user.id
    let permission_error := check_user_permission current_user user_groups
    if permission_error then
      .error (.permission "Permission denied")
    else
      .ok (.agentInfo (fetch_agent_info env agent_name))

/-- `get_agent_info` with its `except` ladder applied. -/
def get_agent_info (env : Env) (agent_name : String) (current_user : UserModel) :
    Except ApiError RouteOutput :=
  routeExcept "" (get_agent_info_body env agent_name current_user)

/-- `get_agent_mitre` (`agent_detail.py` lines 67–118), `try` body: same
permission sequence as `get_agent_info`, fetch keyed by `agent_name` and the
request's time window.  `get_agent_ransomware` (lines 121–165) has an
identical body shape over the same permission sequence. -/
def get_agent_mitre_body (env : Env) (agent_name : String) (st en : Int)
    (current_user : UserModel) : Except ApiError RouteOutput :=
  if current_user.disabled then
    .error (.permission "User account is disabled")
  else if current_user.user_role == "admin" then
    .ok (.telemetry (fetch_telemetry_by_name env agent_name st en))
  else
    let user_groups := env.user_groups current_user.id
    let permission_error := check_user_permission current_user user_groups
    if permission_error then
      .error (.permission "Permission denied")
    else
      .ok (.telemetry (fetch_telemetry_by_name env agent_name st en))

/-- `get_agent_mitre` with its `except` ladder applied. -/
def get_agent_mitre (env : Env) (agent_name : String) (st en : Int)
    (current_user : UserModel) : Except ApiError RouteOutput :=
  routeExcept "An unexpected error occurred" (get_agent_mitre_body env agent_name st en current_user)

/-- `get_agent_cve` (`agent_detail.py` lines 168–202), `try` body: no
disabled check; `group_names` is `None` for an admin and the user's group
list otherwise; `if not group_names: raise PermissionError` (Python
falsiness catches both `None` and `[]`); then the id-keyed fetch.
`get_agent_ioc` (lines 205–247) and `get_agent_compliance` (lines 250–284)
have the identical body over their own fetches. -/
def get_agent_cve_body (env : Env) (agent_id : String) (st en : Int)
    (current_user : UserModel) : Except ApiError RouteOutput :=
  let group_names : Option (List String) :=
    if current_user.user_role == "admin" then none
    else some (env.user_groups current_user.id)
  if groupNamesFalsy group_names then
    .error (.permission "Permission denied")
  else
    .ok (.telemetry (fetch_telemetry_by_id env agent_id st en))

/-- `get_agent_cve` with its `except` ladder applied. -/
def get_agent_cve (env : Env) (agent_id : String) (st en : Int)
    (current_user : UserModel) : Except ApiError RouteOutput :=
  routeExcept "" (get_agent_cve_body env agent_id st en current_user)

/-- `get_agent_ioc` (`agent_detail.py` lines 205–247): same body as
`get_agent_cve` over the IoC fetch, with its `except` ladder applied. -/
def get_agent_ioc (env : Env) (agent_id : String) (st en : Int)
    (current_user : UserModel) : Except ApiError RouteOutput :=
  routeExcept "" (get_agent_cve_body env agent_id st en current_user)

/-- `get_modbus_events` (`modbus_events.py` lines 14–53), `try` body:
`if current_user.user_role != 'admin' and current_user.username != 'redteam2':
raise PermissionError` (the bare raise carries an empty message), else fetch
every event in the window. -/
def get_modbus_events_body (env : Env) (st en : Int) (current_user : UserModel) :
    Except ApiError RouteOutput :=
  if current_user.user_role != "admin" && current_user.username != "redteam2" then
    .error (.permission "")
  else
    .ok (.modbusList (fetch_modbus_events env st en))

/-- `get_modbus_events` with its `except` ladder applied. -/
def get_modbus_events (env : Env) (st en : Int) (current_user : UserModel) :
    Except ApiError RouteOutput :=
  routeExcept "" (get_modbus_events_body env st en current_user)

/-- `post_modbus_events` (`modbus_events.py` lines 56–85), `try` body:
`if current_user.user_role != 'admin': raise PermissionError`, else create
the event and return its id.  There is no disabled check. -/
def post_modbus_events_body (env : Env) (current_user : UserModel) :
    Except ApiError RouteOutput :=
  if current_user.user_role != "admin" then
    .error (.permission "")
  else
    .ok (.modbusCreated env.new_event_id)

/-- `post_modbus_events` with its `except` ladder applied. -/
def post_modbus_events (env : Env) (current_user : UserModel) :
    Except ApiError RouteOutput :=
  routeExcept "" (post_modbus_events_body env current_user)

/-- A request to any of the embedded endpoints, used to quantify over
endpoints uniformly. -/
inductive Request where
  | agentInfo (agent_name : String)
  | agentMitre (agent_name : String) (st en : Int)
  | agentCve (agent_id : String) (st en : Int)
  | agentIoc (agent_id : String) (st en : Int)
  | modbusGet (st en : Int)
  | modbusPost
deriving Repr, DecidableEq

/-- Dispatch a request to the corresponding embedded handler. -/
def handle (env : Env) (r : Request) (current_user : UserModel) :
    Except ApiError RouteOutput :=
  match r with
  | .agentInfo n => get_agent_info env n current_user
  | .agentMitre n st en => get_agent_mitre env n st en current_user
  | .agentCve i st en => get_agent_cve env i st en current_user
  | .agentIoc i st en => get_agent_ioc env i st en current_user
  | .modbusGet st en => get_modbus_events env st en current_user
  | .modbusPost => post_modbus_events env current_user

/-- `ManageController.get_group_email_map` (`manage.py` lines 13–25): the
inner join of `Group` with `UserSignup` on `Group.user_signup_id ==
UserSignup.id`, projected to `(group_name, email)` rows; the `current_user`
parameter is never read.  The Python dict comprehension is modelled as the
row list the comprehension iterates. -/
def get_group_email_map (groups : List Group) (signups : List UserSignup)
    (_current_user : UserModel) : List (String × String) :=
  groups.flatMap fun g =>
    signups.filterMap fun s =>
      if g.user_signup_id == s.id then some (g.group_name, s.email) else none

/-- Modelled from the spec: `AgentModel.load_agents(start_time, end_time,
group_names)` (`app.models.wazuh_db`, not under `src/`); §6
`loadAgentsActiveBetween(start, end, group_names?)` — the agents reported
active inside the window, restricted to the given groups when a group list
is supplied. -/
def load_agents (env : Env) (start_time end_time : Int)
    (group_names : Option (List String)) : List AgentDir :=
  env.agents.filter fun a =>
    (decide (start_time ≤ a.last_active) && decide (a.last_active ≤ end_time)) &&
      (match group_names with
       | none => true
       | some gs => a.groups.any fun g => gs.contains g)

/-- `ManageController.get_total_agents` (`manage.py` lines 39–48):
`end_time = utcnow()`, `start_time = end_time - timedelta(days=30)`
(`30 * 86400` seconds), count of the agents loaded for that window. -/
def get_total_agents (env : Env) (now : Int) (group_names : Option (List String)) : Nat :=
  let end_time := now
  let start_time := end_time - 30 * 86400
  (load_agents env start_time end_time group_names).length

/-! ### Concrete fixtures

A small world used to evaluate the handlers on concrete inputs: one agent
(`001`, named `agentA`) in group `plantA`, one agent (`009`, named `agentZ`)
in group `plantZ`, one telemetry record for agent `009`, one modbus event,
and operators of every relevant shape.  User id 7 owns group `plantA`;
every other id owns no groups. -/

/-- Agent `001`, member of group `plantA`. -/
def a1 : AgentDir :=
  { agent_id := "001", agent_name := "agentA", groups := ["plantA"], last_active := 50 }

/-- Agent `009`, member of group `plantZ` — never in user 7's scope. -/
def a9 : AgentDir :=
  { agent_id := "009", agent_name := "agentZ", groups := ["plantZ"], last_active := 60 }

/-- A telemetry record belonging to agent `009`. -/
def r9 : TelemetryRecord := { agent_id := "009", timestamp := 5, payload := "cve-x" }

/-- A stored modbus event from device `d9`. -/
def e9 : ModbusEvent := { device_id := "d9", timestamp := 5 }

/-- The concrete world for the counterexample evaluations. -/
def envW : Env :=
  { user_groups := fun i => if i = 7 then ["plantA"] else [],
    agents := [a1, a9],
    telemetry := [r9],
    modbus_events := [e9],
    new_event_id := "evt1" }

/-- An enabled admin. -/
def uAdmin : UserModel :=
  { id := 1, username := "boss", user_role := "admin", disabled := false }

/-- A disabled admin. -/
def uAdminDisabled : UserModel :=
  { id := 2, username := "boss2", user_role := "admin", disabled := true }

/-- An enabled operator owning group `plantA` (user id 7). -/
def uOperator : UserModel :=
  { id := 7, username := "op", user_role := "operator", disabled := false }

/-- A disabled operator owning group `plantA` (user id 7). -/
def uOperatorDisabled : UserModel :=
  { id := 7, username := "op", user_role := "operator", disabled := true }

/-- An enabled operator named `redteam2`, owning no groups. -/
def uRedteam : UserModel :=
  { id := 3, username := "redteam2", user_role := "operator", disabled := false }

/-- An enabled operator owning no groups. -/
def uNoGroups : UserModel :=
  { id := 5, username := "newbie", user_role := "operator", disabled := false }

/-! ### Claim theorems -/

/-- C1: the claim says every request by a disabled identity is denied with
reason DISABLED_ACCOUNT, the disabled check running before any role check on
every endpoint.  The code violates this: `post_modbus_events` and
`get_agent_cve` never read `current_user.disabled`, so a disabled admin
creates a modbus event successfully and a disabled operator with a group
reads CVE data successfully. -/
theorem c1_disabled_check_missing :
    post_modbus_events envW uAdminDisabled = .ok (.modbusCreated "evt1") ∧
    get_agent_cve envW "009" 0 10 uOperatorDisabled = .ok (.telemetry [r9]) :=
  ⟨rfl, rfl⟩

/-- C2: the claim says a caller-supplied `agent_name` is resolved to a
canonical id and checked against the caller's scope, denying NO_MATCH for a
non-owned agent.  The code violates this (its own comment calls it a logic
error): operator 7, whose scope is exactly `{001}`, fetches agent `009`'s
info by name and agent `009`'s CVE records by id, with no membership check
on the requested agent. -/
theorem c2_name_lookup_bypasses_scope :
    get_agent_info envW "agentZ" uOperator = .ok (.agentInfo [a9]) ∧
    get_agent_cve envW "009" 0 10 uOperator = .ok (.telemetry [r9]) ∧
    agentsInGroups envW (envW.user_groups uOperator.id) = ["001"] ∧
    "009" ∉ agentsInGroups envW (envW.user_groups uOperator.id) :=
  ⟨rfl, rfl, rfl, by decide⟩

/-- C3: the claim says every non-disabled admin request is allowed with
scope ALL.  The code violates this on `get_agent_cve` and `get_agent_ioc`:
the admin branch sets `group_names = None`, and `if not group_names` treats
`None` as falsy, so an enabled admin is denied. -/
theorem c3_admin_denied_by_none_falsiness :
    get_agent_cve envW "001" 0 10 uAdmin = .error (.permission "Permission denied") ∧
    get_agent_ioc envW "001" 0 10 uAdmin = .error (.permission "Permission denied") :=
  ⟨rfl, rfl⟩

/-- C4: the claim says every allowed non-admin request only touches records
of agents in `agentsInGroups(groupsOwnedBy(identity))`.  The code violates
this: the `redteam2` operator owns no groups (scope is empty), yet
`get_modbus_events` returns the stored event of device `d9`. -/
theorem c4_redteam2_fetch_unscoped :
    get_modbus_events envW 0 10 uRedteam = .ok (.modbusList [e9]) ∧
    agentsInGroups envW (envW.user_groups uRedteam.id) = [] ∧
    e9.device_id ∉ agentsInGroups envW (envW.user_groups uRedteam.id) :=
  ⟨rfl, rfl, by decide⟩

/-- C5: the claim says every non-admin, non-disabled identity owning no
groups is denied NO_MATCH on every request, including aggregate ones.  The
code violates this: `redteam2` is a non-admin, enabled, group-less operator
whose aggregate `get_modbus_events` request succeeds. -/
theorem c5_groupless_operator_allowed :
    envW.user_groups uRedteam.id = [] ∧
    uRedteam.user_role ≠ "admin" ∧
    uRedteam.disabled = false ∧
    get_modbus_events envW 0 10 uRedteam = .ok (.modbusList [e9]) :=
  ⟨rfl, by decide, rfl, rfl⟩

/-- C6: the hardcoded `redteam2` backdoor in `get_modbus_events`: any
authenticated user named `redteam2` — whatever their role, disabled flag or
group ownership — receives every stored event of the requested window,
while every other non-admin user is denied. -/
theorem c6_redteam2_backdoor (env : Env) (st en : Int) (u : UserModel) :
    (u.username = "redteam2" →
      get_modbus_events env st en u = .ok (.modbusList (fetch_modbus_events env st en))) ∧
    (u.user_role ≠ "admin" → u.username ≠ "redteam2" →
      get_modbus_events env st en u = .error (.permission "Permission denied")) := by
  constructor
  · intro h
    simp [get_modbus_events, get_modbus_events_body, routeExcept, h]
  · intro hr hn
    simp [get_modbus_events, get_modbus_events_body, routeExcept, hr, hn]

/-- C6 witness: in the concrete world, the group-less, non-admin `redteam2`
gets the full event list while the ordinary operator is denied. -/
theorem c6_redteam2_backdoor_witness :
    get_modbus_events envW 0 10 uRedteam = .ok (.modbusList (fetch_modbus_events envW 0 10)) ∧
    get_modbus_events envW 0 10 uOperator = .error (.permission "Permission denied") :=
  ⟨(c6_redteam2_backdoor envW 0 10 uRedteam).1 rfl,
   (c6_redteam2_backdoor envW 0 10 uOperator).2 (by decide) (by decide)⟩

/-- Every `PermissionError` escaping a route's `except` ladder carries the
message `Permission denied`, whatever was raised inside the `try` body. -/
theorem routeExcept_permission_msg (internalMsg : String)
    (x : Except ApiError RouteOutput) (m : String)
    (h : routeExcept internalMsg x = .error (.permission m)) :
    m = "Permission denied" := by
  cases x with
  | ok r => simp [routeExcept] at h
  | error e =>
    cases e with
    | unauthorized msg => simp [routeExcept] at h
    | permission msg =>
      simp [routeExcept] at h
      exact h.symm
    | internal msg => simp [routeExcept] at h

/-- Lifting of `routeExcept_permission_msg` to the request dispatcher. -/
theorem handle_permission_msg (env : Env) (r : Request) (u : UserModel) (m : String)
    (h : handle env r u = .error (.permission m)) : m = "Permission denied" := by
  cases r with
  | agentInfo n => exact routeExcept_permission_msg "" _ m h
  | agentMitre n st en => exact routeExcept_permission_msg "An unexpected error occurred" _ m h
  | agentCve i st en => exact routeExcept_permission_msg "" _ m h
  | agentIoc i st en => exact routeExcept_permission_msg "" _ m h
  | modbusGet st en => exact routeExcept_permission_msg "" _ m h
  | modbusPost => exact routeExcept_permission_msg "" _ m h

/-- C7: any two permission denials, from any endpoints, any users and any
worlds — whether the internal cause was a disabled account or a failed
group match — surface as the same error value: a `PermissionError` with the
message `Permission denied`. -/
theorem c7_denials_indistinguishable (env₁ env₂ : Env) (r₁ r₂ : Request)
    (u₁ u₂ : UserModel) (m₁ m₂ : String)
    (h₁ : handle env₁ r₁ u₁ = .error (.permission m₁))
    (h₂ : handle env₂ r₂ u₂ = .error (.permission m₂)) :
    ApiError.permission m₁ = ApiError.permission m₂ := by
  rw [handle_permission_msg env₁ r₁ u₁ m₁ h₁, handle_permission_msg env₂ r₂ u₂ m₂ h₂]

/-- C7 witness: a disabled-account denial on `get_agent_info` and a
role-based denial on `get_modbus_events` surface identically. -/
theorem c7_denials_indistinguishable_witness :
    ApiError.permission "Permission denied" = ApiError.permission "Permission denied" :=
  c7_denials_indistinguishable envW envW (.agentInfo "agentA") (.modbusGet 0 10)
    uOperatorDisabled uOperator "Permission denied" "Permission denied" rfl rfl

/-- C8 counterexample: the claim says a no-access condition is returned as
a decision value, never raised.  At a concrete no-access input the handler
raises (`Except.error`) a `PermissionError` instead of returning a value. -/
theorem c8_denial_is_raised :
    get_modbus_events envW 0 10 uNoGroups = .error (.permission "Permission denied") := rfl

/-- Errors of the `get_agent_info` body are always `PermissionError`s. -/
theorem get_agent_info_body_error (env : Env) (n : String) (u : UserModel)
    (e : ApiError) (h : get_agent_info_body env n u = .error e) :
    ∃ m, e = .permission m := by
  unfold get_agent_info_body at h
  split at h
  · injection h with h
    exact ⟨_, h.symm⟩
  · split at h
    · cases h
    · dsimp only at h
      split at h
      · injection h with h
        exact ⟨_, h.symm⟩
      · cases h

/-- Errors of the `get_agent_mitre` body are always `PermissionError`s. -/
theorem get_agent_mitre_body_error (env : Env) (n : String) (st en : Int)
    (u : UserModel) (e : ApiError) (h : get_agent_mitre_body env n st en u = .error e) :
    ∃ m, e = .permission m := by
  unfold get_agent_mitre_body at h
  split at h
  · injection h with h
    exact ⟨_, h.symm⟩
  · split at h
    · cases h
    · dsimp only at h
      split at h
      · injection h with h
        exact ⟨_, h.symm⟩
      · cases h

/-- Errors of the `get_agent_cve` body are always `PermissionError`s. -/
theorem get_agent_cve_body_error (env : Env) (i : String) (st en : Int)
    (u : UserModel) (e : ApiError) (h : get_agent_cve_body env i st en u = .error e) :
    ∃ m, e = .permission m := by
  unfold get_agent_cve_body at h
  split at h
  · dsimp only at h
    split at h
    · injection h with h
      exact ⟨_, h.symm⟩
    · cases h
  · dsimp only at h
    split at h
    · injection h with h
      exact ⟨_, h.symm⟩
    · cases h

/-- Errors of the `get_modbus_events` body are always `PermissionError`s. -/
theorem get_modbus_events_body_error (env : Env) (st en : Int)
    (u : UserModel) (e : ApiError) (h : get_modbus_events_body env st en u = .error e) :
    ∃ m, e = .permission m := by
  unfold get_modbus_events_body at h
  split at h
  · injection h with h
    exact ⟨_, h.symm⟩
  · cases h

/-- Errors of the `post_modbus_events` body are always `PermissionError`s. -/
theorem post_modbus_events_body_error (env : Env)
    (u : UserModel) (e : ApiError) (h : post_modbus_events_body env u = .error e) :
    ∃ m, e = .permission m := by
  unfold post_modbus_events_body at h
  split at h
  · injection h with h
    exact ⟨_, h.symm⟩
  · cases h

/-- A route whose body only raises `PermissionError`s surfaces every error
as `PermissionError("Permission denied")`. -/
theorem routeExcept_error_shape (internalMsg : String) (x : Except ApiError RouteOutput)
    (hx : ∀ e, x = .error e → ∃ m, e = .permission m)
    (e : ApiError) (h : routeExcept internalMsg x = .error e) :
    e = .permission "Permission denied" := by
  cases x with
  | ok r => simp [routeExcept] at h
  | error e' =>
    obtain ⟨m, rfl⟩ := hx e' rfl
    simp [routeExcept] at h
    exact h.symm

/-- C8 amended: the handlers signal every no-access condition by raising —
any error a handler produces is the raised-and-reraised
`PermissionError("Permission denied")`; no denial is returned as a value. -/
theorem c8_every_error_is_permission_raise (env : Env) (r : Request) (u : UserModel)
    (e : ApiError) (h : handle env r u = .error e) :
    e = .permission "Permission denied" := by
  cases r with
  | agentInfo n =>
    exact routeExcept_error_shape "" _ (fun e' h' => get_agent_info_body_error env n u e' h') e h
  | agentMitre n st en =>
    exact routeExcept_error_shape "An unexpected error occurred" _
      (fun e' h' => get_agent_mitre_body_error env n st en u e' h') e h
  | agentCve i st en =>
    exact routeExcept_error_shape "" _
      (fun e' h' => get_agent_cve_body_error env i st en u e' h') e h
  | agentIoc i st en =>
    exact routeExcept_error_shape "" _
      (fun e' h' => get_agent_cve_body_error env i st en u e' h') e h
  | modbusGet st en =>
    exact routeExcept_error_shape "" _
      (fun e' h' => get_modbus_events_body_error env st en u e' h') e h
  | modbusPost =>
    exact routeExcept_error_shape "" _
      (fun e' h' => post_modbus_events_body_error env u e' h') e h

/-- C8 witness: the group-less operator's denied IoC request raises, and
the raised error is the normalized `PermissionError`. -/
theorem c8_every_error_is_permission_raise_witness :
    handle envW (.agentIoc "001" 0 10) uNoGroups = .error (.permission "Permission denied") ∧
    ApiError.permission "Permission denied" = ApiError.permission "Permission denied" :=
  ⟨rfl, c8_every_error_is_permission_raise envW (.agentIoc "001" 0 10) uNoGroups _ rfl⟩

/-- C9: `get_group_email_map` ignores its `current_user` argument — every
caller receives the same map — and, whenever every group's owning signup
row exists, the map has an email entry for every group name in the system. -/
theorem c9_group_email_map_caller_independent
    (groups : List Group) (signups : List UserSignup) (u₁ u₂ : UserModel)
    (hown : ∀ g ∈ groups, ∃ s ∈ signups, g.user_signup_id = s.id) :
    get_group_email_map groups signups u₁ = get_group_email_map groups signups u₂ ∧
    ∀ g ∈ groups, ∃ email, (g.group_name, email) ∈ get_group_email_map groups signups u₁ := by
  refine ⟨rfl, ?_⟩
  intro g hg
  obtain ⟨s, hs, hid⟩ := hown g hg
  refine ⟨s.email, List.mem_flatMap.mpr ⟨g, hg, List.mem_filterMap.mpr ⟨s, hs, ?_⟩⟩⟩
  simp [hid]

/-- A concrete group table: `plantA` owned by signup 11. -/
def groupsW : List Group := [{ group_name := "plantA", user_signup_id := 11 }]

/-- A concrete signup table: signup 11 with its email. -/
def signupsW : List UserSignup := [{ id := 11, email := "ownerA at example.com" }]

/-- C9 witness: an admin and an ordinary operator receive the identical
full group-to-email map. -/
theorem c9_group_email_map_caller_independent_witness :
    get_group_email_map groupsW signupsW uAdmin = get_group_email_map groupsW signupsW uOperator ∧
    ∀ g ∈ groupsW, ∃ email, (g.group_name, email) ∈ get_group_email_map groupsW signupsW uAdmin :=
  c9_group_email_map_caller_independent groupsW signupsW uAdmin uOperator (by decide)

/-- C10: with no caller-supplied window, `get_total_agents` counts exactly
the agents whose last activity lies in the default window
`[now - 30 days, now]`. -/
theorem c10_default_window_count (env : Env) (now : Int) :
    get_total_agents env now none =
      (env.agents.filter fun a =>
        decide (now - 30 * 86400 ≤ a.last_active) && decide (a.last_active ≤ now)).length := by
  simp [get_total_agents, load_agents]

end ThreatGraph
